import Mathlib

/-!
# Verification of the stock-scanner catalog cache and lookup services

Shallow embedding of `src/services/a_stock_service_async.py`,
`src/services/us_stock_service_async.py` and `src/services/fund_service_async.py`.

Modelling conventions:
* A `datetime` is an integer count of microseconds (`Int`), so that
  `now - cache_timestamp < cache_duration` is ordinary integer arithmetic and
  `strftime('%Y-%m-%d %H:%M:%S')` is truncation to whole seconds.
* A timestamp string on disk is represented by its parse: `DateCell.valid t`
  stands for a well-formed `YYYY-MM-DD HH:MM:SS` string whose `strptime` value
  is the second-aligned instant `t`; `DateCell.malformed s` stands for a string
  `strptime` rejects (raising `ValueError`).
* A pandas cell that may be `NaN` is an `Option`; `pd.notna` is `Option.isSome`,
  and pandas `.str` accessors propagate `NaN` (modelled by `Option.map`) while
  `str.contains(..., na=False)` yields `false` on `NaN`.
* A Python dict result is an association list `List (String × PyVal)` in the
  literal key order of the source, so "the result has exactly these keys" is a
  statement about `List.map Prod.fst`.
* A raised exception is `Except.error msg`; Python message formatting is string
  concatenation.  `asyncio.to_thread` only moves a call to a worker thread, so
  the awaited provider call is modelled by passing its outcome
  (`Except String (List row)`) as an argument.
* Each service method returns `Except ... × State` where the second component
  is the instance state (`self.cache`, `self.cache_timestamp`, and the contents
  of the cache file) after the call.
-/

/-- Microseconds per second. -/
def usPerSec : Int := 1000000

/-- `strftime('%Y-%m-%d %H:%M:%S')` keeps whole seconds only: truncate a
microsecond timestamp to its second boundary (timestamps are nonnegative). -/
def truncSec (t : Int) : Int := t / usPerSec * usPerSec

/-- A timestamp string on disk, represented by its parse (see module docs). -/
inductive DateCell where
  | valid (t : Int)
  | malformed (s : String)
deriving DecidableEq, Repr

/-- `datetime.strptime(s, '%Y-%m-%d %H:%M:%S')`: succeeds exactly on
well-formed timestamp strings, raises `ValueError` otherwise. -/
def strptimeCell : DateCell → Except String Int
  | .valid t => .ok t
  | .malformed s => .error ("ValueError: time data " ++ s ++ " does not match format")

/-- `str(datetime.strftime('%Y-%m-%d %H:%M:%S'))` applied to the instant `t`. -/
def strftimeCell (t : Int) : DateCell := .valid (truncSec t)

/-- The value stored under one key of a Python dict result: a string, a float
(modelled as `Rat`; no claim depends on float rounding), or `NaN`. -/
inductive PyVal where
  | vStr (s : String)
  | vNum (q : Rat)
  | vNaN
deriving DecidableEq, Repr

/-- A Python dict result, as an association list in literal key order. -/
abbrev PyDict := List (String × PyVal)

/-- The keys of a dict result, in order. -/
def dictKeys (d : PyDict) : List String := d.map Prod.fst

/-- A possibly-`NaN` string cell rendered as a dict value (no defaulting). -/
def optVal : Option String → PyVal
  | some s => .vStr s
  | none => .vNaN

/-- `row[k] if pd.notna(row[k]) else ''` for a string cell. -/
def strOrEmpty (o : Option String) : PyVal := .vStr (o.getD "")

/-- `float(row[k]) if pd.notna(row[k]) else 0.0` for a numeric cell. -/
def numOrZero (o : Option Rat) : PyVal := .vNum (o.getD 0)

/-- The characters of a string, lowercased (`str.lower()`; ASCII folding,
which agrees with Python on the keywords appearing in this development). -/
def lowerChars (s : String) : List Char := s.toList.map Char.toLower

/-- pandas `Series.str.contains(keyword, case=False, na=False)` on one cell:
case-insensitive containment of the keyword in the cell, `false` on `NaN`.
(The pandas default regex interpretation coincides with substring containment
on keywords free of regex metacharacters.) -/
def containsCI (cell : Option String) (keyword : String) : Bool :=
  match cell with
  | some s => decide (lowerChars keyword <:+: lowerChars s)
  | none => false

/-- The freshness gate common to all three services:
`self.cache is not None and (now - self.cache_timestamp) < self.cache_duration`.
The in-memory cache and its timestamp are always assigned together in the
source, so the gate is stated on the pair. -/
def isFresh {ρ : Type} (cache : Option (List ρ)) (ts : Option Int)
    (now ttl : Int) : Bool :=
  match cache, ts with
  | some _, some t => decide (now - t < ttl)
  | _, _ => false

/-- The contents of a cache CSV file: either a table whose rows pandas can
read together with the cells of its `日期` column (one per data row, as
written by `df['日期'] = ...; df.to_csv(...)`), or a file `pd.read_csv`
cannot parse at all. -/
inductive RawFile (ρ : Type) where
  | table (rows : List ρ) (dates : List DateCell)
  | unreadable
deriving DecidableEq, Repr

/-- The file produced by `df['日期'] = str(datetime.now().strftime(...));
df.to_csv(cache_file, index=False)`: the fetched rows, with the one
formatted write-time timestamp repeated in the `日期` column of every row. -/
def saveCsv {ρ : Type} (rows : List ρ) (tWrite : Int) : RawFile ρ :=
  .table rows (rows.map fun _ => strftimeCell tWrite)

/-- The constructors' load path for an existing cache file:
`pd.read_csv` (may raise), `df['日期'].iloc[0]` (raises `IndexError` on an
empty table), `datetime.strptime` (may raise `ValueError`); on success the
`日期` column is popped and the remaining rows seed the in-memory cache.
(The guard `if len('日期') > 0:` in the source is a constant true.) -/
def readCsv {ρ : Type} (f : RawFile ρ) : Except String (List ρ × Int) :=
  match f with
  | .unreadable => .error "pandas error: unreadable cache file"
  | .table rows dates =>
    match dates.head? with
    | none => .error "IndexError: single positional indexer is out-of-bounds"
    | some dc =>
      match strptimeCell dc with
      | .error e => .error e
      | .ok t => .ok (rows, t)

/-- Observable contents of the cache file while `df.to_csv(cache_file, ...)`
is in progress: `to_csv` opens the target path for truncating write and
streams the rows, so a concurrent reader can see the table after any prefix
of the rows has been written (element `n` is the state after `n` rows). -/
def toCsvStates {ρ : Type} (rows : List ρ) (dates : List DateCell) :
    List (RawFile ρ) :=
  (List.range (rows.length + 1)).map fun n => .table (rows.take n) (dates.take n)

/-- "A reader never observes a half-written file": every observable state
during the write is the prior contents or the final contents. -/
def neverHalfWritten {ρ : Type} (old final : RawFile ρ)
    (states : List (RawFile ρ)) : Prop :=
  ∀ v ∈ states, v = old ∨ v = final

/-!
## A股 service — `src/services/a_stock_service_async.py` (`AStockServiceAsync`)
-/

/-- One row of the A-share catalog after the provider's `code`/`name` columns
are renamed to `symbol`/`name`.  Cells may be `NaN` (pandas). -/
structure ARow where
  symbol : Option String
  name : Option String
deriving DecidableEq, Repr

/-- The instance state of `AStockServiceAsync` plus the contents of its cache
file `data/all_a_stock.csv` (`none` = the file does not exist). -/
structure AState where
  cache : Option (List ARow)
  cache_timestamp : Option Int
  file : Option (RawFile ARow)
deriving DecidableEq, Repr

/-- `self.cache_duration = timedelta(days=5)`, in microseconds. -/
def aCacheDuration : Int := 5 * 86400 * usPerSec

/-- `AStockServiceAsync.__init__`: if the cache file exists, read it (any
read/parse error propagates out of the constructor — there is no handler) and
seed `self.cache` / `self.cache_timestamp` from it; otherwise both stay
`None`.  The file itself is not modified. -/
def aInit (file : Option (RawFile ARow)) : Except String AState :=
  match file with
  | none => .ok ⟨none, none, none⟩
  | some f =>
    match readCsv f with
    | .error e => .error e
    | .ok (rows, t) => .ok ⟨some rows, some t, some f⟩

/-- `df['name'].str.replace(' ', '')` removes every space character from a
name cell (`NaN` propagates). -/
def stripSpaces (s : String) : String := String.mk (s.toList.filter (· ≠ ' '))

/-- The post-fetch cleanup of `_get_all_stocks_data`: remove spaces from the
`name` column of the fetched rows. -/
def aClean (df : List ARow) : List ARow :=
  df.map fun r => { r with name := r.name.map stripSpaces }

/-- `AStockServiceAsync._get_all_stocks_data`.
`now` is the `datetime.now()` sampled at entry (before the freshness check and
any fetch); `nowWrite` is the second `datetime.now()` sampled when the `日期`
column is written after the fetch; `fetch` is the outcome of
`ak.stock_info_a_code_name()` (already column-renamed).  Returns the dataframe
together with the number of provider fetches performed, and the new state.
On a fetch error the exception is wrapped with `获取A数据失败: ` and the state
is unchanged. -/
def aGetAllStocksData (s : AState) (now nowWrite : Int)
    (fetch : Except String (List ARow)) :
    Except String (List ARow × Nat) × AState :=
  match s.cache, s.cache_timestamp with
  | some c, some t =>
    if now - t < aCacheDuration then (.ok (c, 0), s)
    else
      match fetch with
      | .error e => (.error ("获取A数据失败: " ++ e), s)
      | .ok df =>
        let df2 := aClean df
        (.ok (df2, 1),
          { cache := some df2, cache_timestamp := some now,
            file := some (saveCsv df2 nowWrite) })
  | _, _ =>
    match fetch with
    | .error e => (.error ("获取A数据失败: " ++ e), s)
    | .ok df =>
      let df2 := aClean df
      (.ok (df2, 1),
        { cache := some df2, cache_timestamp := some now,
          file := some (saveCsv df2 nowWrite) })

/-- The fuzzy-match mask of `search_stocks`:
`df['name'].str.contains(keyword, case=False, na=False)`. -/
def aMatch (keyword : String) (r : ARow) : Bool := containsCI r.name keyword

/-- One formatted search result of `search_stocks`. -/
def aFormatSearch (r : ARow) : PyDict :=
  [("name", strOrEmpty r.name), ("symbol", strOrEmpty r.symbol)]

/-- The pure lookup layer of `search_stocks` on a dataframe: filter by the
mask, format each surviving row in order, stop once 10 results are collected. -/
def aSearchRows (df : List ARow) (keyword : String) : List PyDict :=
  ((df.filter (aMatch keyword)).take 10).map aFormatSearch

/-- `AStockServiceAsync.search_stocks`: obtain the dataframe via
`_get_all_stocks_data` (possibly fetching), filter/format/cap; any exception
is wrapped with `搜索A股代码失败: `. -/
def search_stocks (s : AState) (keyword : String) (now nowWrite : Int)
    (fetch : Except String (List ARow)) :
    Except String (List PyDict) × AState :=
  match aGetAllStocksData s now nowWrite fetch with
  | (.error e, s2) => (.error ("搜索A股代码失败: " ++ e), s2)
  | (.ok (df, _), s2) => (.ok (aSearchRows df keyword), s2)

/-- The pure lookup layer of `get_stock_detail` on a dataframe: exact match
`df['symbol'] == symbol`, raise mentioning the symbol when empty, else take
the first matching row's name. -/
def aDetailRows (df : List ARow) (symbol : String) : Except String PyDict :=
  match df.filter (fun r => r.symbol == some symbol) with
  | [] => .error ("未找到股票代码" ++ symbol ++ "的股票简称")
  | r :: _ => .ok [("symbol", .vStr symbol), ("name", optVal r.name)]

/-- `AStockServiceAsync.get_stock_detail`: obtain the dataframe via
`_get_all_stocks_data`, exact-match on symbol; any exception (fetch failure
or not-found) is wrapped with `获取A股详情失败: `. -/
def get_stock_detail (s : AState) (symbol : String) (now nowWrite : Int)
    (fetch : Except String (List ARow)) :
    Except String PyDict × AState :=
  match aGetAllStocksData s now nowWrite fetch with
  | (.error e, s2) => (.error ("获取A股详情失败: " ++ e), s2)
  | (.ok (df, _), s2) =>
    match aDetailRows df symbol with
    | .error e => (.error ("获取A股详情失败: " ++ e), s2)
    | .ok d => (.ok d, s2)

/-!
## 美股 service — `src/services/us_stock_service_async.py` (`USStockServiceAsync`)
-/

/-- One row of the US catalog: native `name`, localized `cname`, `symbol`. -/
structure USRow where
  name : Option String
  cname : Option String
  symbol : Option String
deriving DecidableEq, Repr

/-- The instance state of `USStockServiceAsync` plus the contents of its cache
file `data/all_us_stock.csv`. -/
structure USState where
  cache : Option (List USRow)
  cache_timestamp : Option Int
  file : Option (RawFile USRow)
deriving DecidableEq, Repr

/-- `self.cache_duration = timedelta(days=25)`, in microseconds. -/
def usCacheDuration : Int := 25 * 86400 * usPerSec

/-- `USStockServiceAsync.__init__`: same load path as the A-share service. -/
def usInit (file : Option (RawFile USRow)) : Except String USState :=
  match file with
  | none => .ok ⟨none, none, none⟩
  | some f =>
    match readCsv f with
    | .error e => .error e
    | .ok (rows, t) => .ok ⟨some rows, some t, some f⟩

/-- `USStockServiceAsync._get_us_all_stocks_data`.  Same cache algorithm as
the A-share service with a 25-day TTL and no name cleanup (the source's bare
`df.set_index('symbol')` discards its result and has no effect); `fetch` is
the outcome of `ak.get_us_stock_name()`.  Fetch errors are wrapped with
`获取美股所有数据失败: `. -/
def usGetAllStocksData (s : USState) (now nowWrite : Int)
    (fetch : Except String (List USRow)) :
    Except String (List USRow × Nat) × USState :=
  match s.cache, s.cache_timestamp with
  | some c, some t =>
    if now - t < usCacheDuration then (.ok (c, 0), s)
    else
      match fetch with
      | .error e => (.error ("获取美股所有数据失败: " ++ e), s)
      | .ok df =>
        (.ok (df, 1),
          { cache := some df, cache_timestamp := some now,
            file := some (saveCsv df nowWrite) })
  | _, _ =>
    match fetch with
    | .error e => (.error ("获取美股所有数据失败: " ++ e), s)
    | .ok df =>
      (.ok (df, 1),
        { cache := some df, cache_timestamp := some now,
          file := some (saveCsv df nowWrite) })

/-- The fuzzy-match mask of `search_us_stocks`:
`df['cname'].str.contains(keyword, case=False, na=False)` — the match is
against the localized `cname` column, not the native `name` column. -/
def usMatch (keyword : String) (r : USRow) : Bool := containsCI r.cname keyword

/-- One formatted search result of `search_us_stocks`. -/
def usFormatSearch (r : USRow) : PyDict :=
  [("name", strOrEmpty r.name), ("cname", strOrEmpty r.cname),
   ("symbol", strOrEmpty r.symbol)]

/-- The pure lookup layer of `search_us_stocks`: filter by the `cname` mask,
format in order, cap at 10. -/
def usSearchRows (df : List USRow) (keyword : String) : List PyDict :=
  ((df.filter (usMatch keyword)).take 10).map usFormatSearch

/-- Modelled from the spec (for comparison only): the search the spec
describes, matching the keyword against the `name` field. -/
def usSearchRowsByNameSpec (df : List USRow) (keyword : String) : List PyDict :=
  ((df.filter fun r => containsCI r.name keyword).take 10).map usFormatSearch

/-- `USStockServiceAsync.search_us_stocks`; exceptions wrapped with
`搜索美股代码失败: `. -/
def search_us_stocks (s : USState) (keyword : String) (now nowWrite : Int)
    (fetch : Except String (List USRow)) :
    Except String (List PyDict) × USState :=
  match usGetAllStocksData s now nowWrite fetch with
  | (.error e, s2) => (.error ("搜索美股代码失败: " ++ e), s2)
  | (.ok (df, _), s2) => (.ok (usSearchRows df keyword), s2)

/-- The pure lookup layer of `get_us_stock_detail`: exact match
`df['symbol'] == symbol`; on a match the returned dict holds the
caller-supplied `symbol` verbatim and, under the key `name`, the first
matching row's `cname` cell (`result['cname'].values[0]`, no defaulting);
the native `name` column does not appear in the result. -/
def usDetailRows (df : List USRow) (symbol : String) : Except String PyDict :=
  match df.filter (fun r => r.symbol == some symbol) with
  | [] => .error ("未找到股票代码" ++ symbol ++ "的股票简称")
  | r :: _ => .ok [("symbol", .vStr symbol), ("name", optVal r.cname)]

/-- `USStockServiceAsync.get_us_stock_detail`; exceptions wrapped with
`获取美股详情失败: `. -/
def get_us_stock_detail (s : USState) (symbol : String) (now nowWrite : Int)
    (fetch : Except String (List USRow)) :
    Except String PyDict × USState :=
  match usGetAllStocksData s now nowWrite fetch with
  | (.error e, s2) => (.error ("获取美股详情失败: " ++ e), s2)
  | (.ok (df, _), s2) =>
    match usDetailRows df symbol with
    | .error e => (.error ("获取美股详情失败: " ++ e), s2)
    | .ok d => (.ok d, s2)

/-!
## 基金 service — `src/services/fund_service_async.py` (`FundServiceAsync`)
-/

/-- One row of a fund catalog after the provider's Chinese column names are
renamed to the canonical schema.  Numeric cells may be `NaN`. -/
structure FundRow where
  symbol : Option String
  name : Option String
  price : Option Rat
  price_change : Option Rat
  price_change_percent : Option Rat
  volume : Option Rat
  market_value : Option Rat
  total_value : Option Rat
deriving DecidableEq, Repr

/-- The instance state of `FundServiceAsync`: one cache/timestamp pair and one
cache file per catalog kind (`data/all_etf_stock.csv`, `data/all_lof_stock.csv`). -/
structure FundState where
  etf_cache : Option (List FundRow)
  etf_cache_timestamp : Option Int
  lof_cache : Option (List FundRow)
  lof_cache_timestamp : Option Int
  etf_file : Option (RawFile FundRow)
  lof_file : Option (RawFile FundRow)
deriving DecidableEq, Repr

/-- `self.cache_duration = timedelta(days=5)`, in microseconds. -/
def fundCacheDuration : Int := 5 * 86400 * usPerSec

/-- `FundServiceAsync.__init__`: the A-share load path, run for the ETF file
and then for the LOF file (an error in either propagates out). -/
def fundInit (etfFile lofFile : Option (RawFile FundRow)) :
    Except String FundState :=
  match etfFile with
  | none =>
    match lofFile with
    | none => .ok ⟨none, none, none, none, none, none⟩
    | some g =>
      match readCsv g with
      | .error e => .error e
      | .ok (rows, t) => .ok ⟨none, none, some rows, some t, none, some g⟩
  | some f =>
    match readCsv f with
    | .error e => .error e
    | .ok (rowsE, tE) =>
      match lofFile with
      | none => .ok ⟨some rowsE, some tE, none, none, some f, none⟩
      | some g =>
        match readCsv g with
        | .error e => .error e
        | .ok (rows, t) =>
          .ok ⟨some rowsE, some tE, some rows, some t, some f, some g⟩

/-- `FundServiceAsync._get_funds_data(market_type)`.
The ETF freshness check runs only under `market_type == 'ETF'` and the LOF
check only under `market_type == 'LOF'`; when neither returns, the fetch
branch serves ETF for `'ETF'` and LOF for every other value.  `fetchETF` /
`fetchLOF` are the outcomes of `self._get_etf_data` / `self._get_lof_data`
(whose own wrappers `获取ETF数据失败: ` / `获取LOF数据失败: ` are part of the
passed-in message); the `except` clause re-raises unwrapped. -/
def fundGetFundsData (s : FundState) (market_type : String) (now nowWrite : Int)
    (fetchETF fetchLOF : Except String (List FundRow)) :
    Except String (List FundRow × Nat) × FundState :=
  if market_type == "ETF"
      && isFresh s.etf_cache s.etf_cache_timestamp now fundCacheDuration then
    (.ok (s.etf_cache.getD [], 0), s)
  else if market_type == "LOF"
      && isFresh s.lof_cache s.lof_cache_timestamp now fundCacheDuration then
    (.ok (s.lof_cache.getD [], 0), s)
  else if market_type == "ETF" then
    match fetchETF with
    | .error e => (.error e, s)
    | .ok df =>
      (.ok (df, 1),
        { s with etf_cache := some df, etf_cache_timestamp := some now,
                 etf_file := some (saveCsv df nowWrite) })
  else
    match fetchLOF with
    | .error e => (.error e, s)
    | .ok df =>
      (.ok (df, 1),
        { s with lof_cache := some df, lof_cache_timestamp := some now,
                 lof_file := some (saveCsv df nowWrite) })

/-- The fuzzy-match mask of `search_funds`: the keyword against `name` OR
against `symbol`, each `case=False, na=False`. -/
def fundMatch (keyword : String) (r : FundRow) : Bool :=
  containsCI r.name keyword || containsCI r.symbol keyword

/-- One formatted search result of `search_funds` (NaN defaulting applied). -/
def fundFormatSearch (r : FundRow) : PyDict :=
  [("name", strOrEmpty r.name), ("symbol", strOrEmpty r.symbol),
   ("price", numOrZero r.price), ("volume", numOrZero r.volume),
   ("market_value", numOrZero r.market_value),
   ("total_value", numOrZero r.total_value)]

/-- The pure lookup layer of `search_funds`: filter by the mask, format in
order, stop once 20 results are collected. -/
def fundSearchRows (df : List FundRow) (keyword : String) : List PyDict :=
  ((df.filter (fundMatch keyword)).take 20).map fundFormatSearch

/-- `FundServiceAsync.search_funds`; exceptions wrapped with
`搜索基金代码失败: `. -/
def search_funds (s : FundState) (keyword market_type : String)
    (now nowWrite : Int) (fetchETF fetchLOF : Except String (List FundRow)) :
    Except String (List PyDict) × FundState :=
  match fundGetFundsData s market_type now nowWrite fetchETF fetchLOF with
  | (.error e, s2) => (.error ("搜索基金代码失败: " ++ e), s2)
  | (.ok (df, _), s2) => (.ok (fundSearchRows df keyword), s2)

/-- The formatted detail dict of `get_fund_detail` for the first matching row
(NaN defaulting applied; `price_change_percent` is divided by 100). -/
def fundFormatDetail (r : FundRow) : PyDict :=
  [("name", strOrEmpty r.name), ("symbol", strOrEmpty r.symbol),
   ("price", numOrZero r.price), ("price_change", numOrZero r.price_change),
   ("price_change_percent",
     match r.price_change_percent with
     | some q => .vNum (q / 100)
     | none => .vNum 0),
   ("volume", numOrZero r.volume),
   ("market_value", numOrZero r.market_value),
   ("total_value", numOrZero r.total_value)]

/-- The pure lookup layer of `get_fund_detail`: exact match
`df['symbol'] == symbol`, raise mentioning the symbol when empty, else format
the first matching row (`result.iloc[0]`). -/
def fundDetailRows (df : List FundRow) (symbol : String) : Except String PyDict :=
  match df.filter (fun r => r.symbol == some symbol) with
  | [] => .error ("未找到基金代码: " ++ symbol)
  | r :: _ => .ok (fundFormatDetail r)

/-- `FundServiceAsync.get_fund_detail`; exceptions wrapped with
`获取基金详情失败: `. -/
def get_fund_detail (s : FundState) (symbol market_type : String)
    (now nowWrite : Int) (fetchETF fetchLOF : Except String (List FundRow)) :
    Except String PyDict × FundState :=
  match fundGetFundsData s market_type now nowWrite fetchETF fetchLOF with
  | (.error e, s2) => (.error ("获取基金详情失败: " ++ e), s2)
  | (.ok (df, _), s2) =>
    match fundDetailRows df symbol with
    | .error e => (.error ("获取基金详情失败: " ++ e), s2)
    | .ok d => (.ok d, s2)

/-!
## Claims
-/

/-- C1: the freshness check used by the data getters returns fresh iff
`now - captured_at < ttl` (strict inequality), and a missing in-memory
snapshot is always treated as stale; a get with
`captured_at = now - ttl + 1s` triggers no provider fetch and returns the
cached snapshot unchanged, while `captured_at = now - ttl - 1s` (or no
snapshot) triggers exactly one provider fetch. -/
theorem c1_freshness_gate :
    (∀ (cache : Option (List ARow)) (ts : Option Int) (now ttl : Int),
      isFresh cache ts now ttl = true ↔
        ∃ c t, cache = some c ∧ ts = some t ∧ now - t < ttl) ∧
    (∀ (c : List ARow) (f : Option (RawFile ARow)) (now nowWrite : Int)
      (fetch : Except String (List ARow)),
      aGetAllStocksData ⟨some c, some (now - aCacheDuration + usPerSec), f⟩
          now nowWrite fetch
        = (.ok (c, 0), ⟨some c, some (now - aCacheDuration + usPerSec), f⟩)) ∧
    (∀ (c : List ARow) (f : Option (RawFile ARow)) (now nowWrite : Int)
      (rows : List ARow),
      aGetAllStocksData ⟨some c, some (now - aCacheDuration - usPerSec), f⟩
          now nowWrite (.ok rows)
        = (.ok (aClean rows, 1),
           ⟨some (aClean rows), some now, some (saveCsv (aClean rows) nowWrite)⟩)) ∧
    (∀ (f : Option (RawFile ARow)) (now nowWrite : Int) (rows : List ARow),
      aGetAllStocksData ⟨none, none, f⟩ now nowWrite (.ok rows)
        = (.ok (aClean rows, 1),
           ⟨some (aClean rows), some now, some (saveCsv (aClean rows) nowWrite)⟩)) := by
  refine ⟨?_, ?_, ?_, ?_⟩
  · intro cache ts now ttl
    cases cache <;> cases ts <;> simp [isFresh]
  · intro c f now nowWrite fetch
    have h : now - (now - aCacheDuration + usPerSec) < aCacheDuration := by
      simp only [aCacheDuration, usPerSec]; omega
    simp [aGetAllStocksData, h]
  · intro c f now nowWrite rows
    have h : ¬ now - (now - aCacheDuration - usPerSec) < aCacheDuration := by
      simp only [aCacheDuration, usPerSec]; omega
    simp [aGetAllStocksData, h]
  · intro f now nowWrite rows
    rfl

/-- C2: when the provider fetch raises during a refresh, the error propagates
to the caller of search/get_detail (wrapped with the operation's message
prefix) and the cache state — previous in-memory snapshot, its timestamp, and
the persisted cache file — is left untouched; moreover, on a failing fetch
the state is unchanged unconditionally, and no rows are served in place of
the error. -/
theorem c2_refresh_failure_propagates (sa : AState) (sf : FundState)
    (kw sym e ef : String) (now nowWrite : Int)
    (fetchLOF : Except String (List FundRow))
    (ha : isFresh sa.cache sa.cache_timestamp now aCacheDuration = false)
    (hf : isFresh sf.etf_cache sf.etf_cache_timestamp now fundCacheDuration = false) :
    search_stocks sa kw now nowWrite (.error e)
      = (.error ("搜索A股代码失败: " ++ ("获取A数据失败: " ++ e)), sa) ∧
    get_stock_detail sa sym now nowWrite (.error e)
      = (.error ("获取A股详情失败: " ++ ("获取A数据失败: " ++ e)), sa) ∧
    search_funds sf kw "ETF" now nowWrite (.error ef) fetchLOF
      = (.error ("搜索基金代码失败: " ++ ef), sf) ∧
    get_fund_detail sf sym "ETF" now nowWrite (.error ef) fetchLOF
      = (.error ("获取基金详情失败: " ++ ef), sf) ∧
    (∀ (s2 : AState) (kw2 : String) (n n2 : Int) (e2 : String),
      (search_stocks s2 kw2 n n2 (.error e2)).2 = s2) := by
  have key : aGetAllStocksData sa now nowWrite (.error e)
      = (.error ("获取A数据失败: " ++ e), sa) := by
    obtain ⟨cache, ts, f⟩ := sa
    match cache, ts with
    | none, none => rfl
    | none, some t => rfl
    | some c, none => rfl
    | some c, some t =>
      have h2 : ¬ now - t < aCacheDuration := by simpa [isFresh] using ha
      simp [aGetAllStocksData, h2]
  have hcond : (("ETF" == "ETF")
      && isFresh sf.etf_cache sf.etf_cache_timestamp now fundCacheDuration) = false := by
    simp [hf]
  refine ⟨?_, ?_, ?_, ?_, ?_⟩
  · simp [search_stocks, key]
  · simp [get_stock_detail, key]
  · simp [search_funds, fundGetFundsData, hcond, hf]
  · simp [get_fund_detail, fundGetFundsData, hcond, hf]
  · intro s2 kw2 n n2 e2
    obtain ⟨cache2, ts2, f2⟩ := s2
    match cache2, ts2 with
    | none, none => rfl
    | none, some t => rfl
    | some c, none => rfl
    | some c, some t =>
      by_cases h : n - t < aCacheDuration
      · simp [search_stocks, aGetAllStocksData, h]
      · simp [search_stocks, aGetAllStocksData, h]

/-- Witness for C2 at a concrete cold-start state and failing fetch. -/
theorem c2_refresh_failure_propagates_witness :
    search_stocks ⟨none, none, none⟩ "x" 0 0 (.error "boom")
      = (.error ("搜索A股代码失败: " ++ ("获取A数据失败: " ++ "boom")),
         ⟨none, none, none⟩) :=
  (c2_refresh_failure_propagates ⟨none, none, none⟩
    ⟨none, none, none, none, none, none⟩ "x" "y" "boom" "bang" 0 0
    (.error "z") rfl rfl).1

/-- C3 counterexample: the US search does not match the keyword against the
`name` field.  Concrete snapshot: one row whose native `name` "Apple Inc"
contains the keyword "Apple" (case-insensitively) but whose localized `cname`
"pingguo" does not; `search_us_stocks`' row filter returns no matches, and it
differs from the spec-worded name-matching search on this input. -/
theorem c3_search_counterexample :
    usSearchRows [⟨some "Apple Inc", some "pingguo", some "AAPL"⟩] "Apple" = [] ∧
    containsCI (some "Apple Inc") "Apple" = true ∧
    usSearchRows [⟨some "Apple Inc", some "pingguo", some "AAPL"⟩] "Apple"
      ≠ usSearchRowsByNameSpec [⟨some "Apple Inc", some "pingguo", some "AAPL"⟩]
          "Apple" := by
  decide

/-- C3 (amended): search performs a case-insensitive substring match of the
keyword against `name` for the A-share catalog, against `name` or `symbol`
for the fund catalogs, and against the localized `cname` (not the native
`name`) for the US catalog; it returns the matching rows formatted in
snapshot order, truncated to the market's cap (10 for equities, 20 for
funds), and returns an empty sequence without raising when zero rows match. -/
theorem c3_search_semantics :
    (∀ (df : List ARow) (kw : String),
      aSearchRows df kw
          = (((df.filter (aMatch kw)).map aFormatSearch).take 10) ∧
      (aSearchRows df kw).length ≤ 10 ∧
      (aSearchRows df kw).Sublist ((df.filter (aMatch kw)).map aFormatSearch)) ∧
    (∀ (df : List FundRow) (kw : String),
      fundSearchRows df kw
          = (((df.filter (fundMatch kw)).map fundFormatSearch).take 20) ∧
      (fundSearchRows df kw).length ≤ 20 ∧
      (fundSearchRows df kw).Sublist
        ((df.filter (fundMatch kw)).map fundFormatSearch)) ∧
    (∀ (df : List USRow) (kw : String),
      usSearchRows df kw
          = (((df.filter (usMatch kw)).map usFormatSearch).take 10) ∧
      (usSearchRows df kw).length ≤ 10) ∧
    containsCI (some "aapl inc") "AAPL" = true ∧
    (∀ (df : List ARow) (kw : String) (f : Option (RawFile ARow))
      (now n2 : Int) (fetch : Except String (List ARow)),
      (∀ r ∈ df, aMatch kw r = false) →
        search_stocks ⟨some df, some now, f⟩ kw now n2 fetch
          = (.ok [], ⟨some df, some now, f⟩)) := by
  refine ⟨?_, ?_, ?_, by decide, ?_⟩
  · intro df kw
    refine ⟨by simp [aSearchRows, List.map_take], by simp [aSearchRows], ?_⟩
    exact List.Sublist.map _ (List.take_sublist _ _)
  · intro df kw
    refine ⟨by simp [fundSearchRows, List.map_take], by simp [fundSearchRows], ?_⟩
    exact List.Sublist.map _ (List.take_sublist _ _)
  · intro df kw
    exact ⟨by simp [usSearchRows, List.map_take], by simp [usSearchRows]⟩
  · intro df kw f now n2 fetch hnone
    have h0 : (0 : Int) < aCacheDuration := by
      simp only [aCacheDuration, usPerSec]; omega
    have hfilter : df.filter (aMatch kw) = [] := by
      simpa [List.filter_eq_nil_iff] using hnone
    simp [search_stocks, aGetAllStocksData, aSearchRows, hfilter, h0]

/-- Witness for C3 (amended) at a concrete snapshot with zero matches. -/
theorem c3_search_semantics_witness :
    search_stocks ⟨some [⟨some "600000", some "bank"⟩], some 0, none⟩ "zzz" 0 0
        (.ok []) = (.ok [], ⟨some [⟨some "600000", some "bank"⟩], some 0, none⟩) :=
  c3_search_semantics.2.2.2.2 [⟨some "600000", some "bank"⟩] "zzz" none 0 0
    (.ok []) (by decide)

/-- C4: `get_detail` performs an exact match on the `symbol` field; when no
row matches it raises an error mentioning the requested symbol (a hard error,
not an empty result — at the service level the message is wrapped with the
operation prefix); when rows match it returns the first matching row's
fields, and for the equity catalogs the result has exactly the keys
`symbol` and `name`. -/
theorem c4_detail_exact_match :
    (∀ (r : ARow) (sym : String),
      ((r.symbol == some sym) = true) ↔ r.symbol = some sym) ∧
    (∀ (df : List ARow) (sym : String),
      df.filter (fun r => r.symbol == some sym) = [] →
        aDetailRows df sym = .error ("未找到股票代码" ++ sym ++ "的股票简称")) ∧
    (∀ (df : List ARow) (sym : String) (r : ARow) (rest : List ARow),
      df.filter (fun r => r.symbol == some sym) = r :: rest →
        aDetailRows df sym = .ok [("symbol", .vStr sym), ("name", optVal r.name)] ∧
        dictKeys [("symbol", PyVal.vStr sym), ("name", optVal r.name)]
          = ["symbol", "name"]) ∧
    (∀ (df : List FundRow) (sym : String),
      df.filter (fun r => r.symbol == some sym) = [] →
        fundDetailRows df sym = .error ("未找到基金代码: " ++ sym)) ∧
    (∀ (df : List FundRow) (sym : String) (r : FundRow) (rest : List FundRow),
      df.filter (fun r => r.symbol == some sym) = r :: rest →
        fundDetailRows df sym = .ok (fundFormatDetail r)) ∧
    (∀ (df : List ARow) (sym : String) (f : Option (RawFile ARow))
      (now n2 : Int) (fetch : Except String (List ARow)),
      df.filter (fun r => r.symbol == some sym) = [] →
        get_stock_detail ⟨some df, some now, f⟩ sym now n2 fetch
          = (.error ("获取A股详情失败: "
              ++ ("未找到股票代码" ++ sym ++ "的股票简称")),
             ⟨some df, some now, f⟩)) := by
  refine ⟨?_, ?_, ?_, ?_, ?_, ?_⟩
  · intro r sym
    cases h : r.symbol <;> simp
  · intro df sym h
    simp [aDetailRows, h]
  · intro df sym r rest h
    exact ⟨by simp [aDetailRows, h], rfl⟩
  · intro df sym h
    simp [fundDetailRows, h]
  · intro df sym r rest h
    simp [fundDetailRows, h]
  · intro df sym f now n2 fetch h
    have h0 : (0 : Int) < aCacheDuration := by
      simp only [aCacheDuration, usPerSec]; omega
    simp [get_stock_detail, aGetAllStocksData, aDetailRows, h, h0]

/-- Witness for C4: a populated cache with symbol `600000` only; the detail
request for `999999` raises the not-found error mentioning `999999`. -/
theorem c4_detail_exact_match_witness :
    get_stock_detail ⟨some [⟨some "600000", some "bank"⟩], some 0, none⟩
        "999999" 0 0 (.ok [])
      = (.error ("获取A股详情失败: "
          ++ ("未找到股票代码" ++ "999999" ++ "的股票简称")),
         ⟨some [⟨some "600000", some "bank"⟩], some 0, none⟩) :=
  c4_detail_exact_match.2.2.2.2.2 [⟨some "600000", some "bank"⟩] "999999"
    none 0 0 (.ok []) (by decide)

/-- C5 counterexample: after a successful refresh the timestamp stored in the
file's date column does *not* equal the in-memory `captured_at`.  Concrete
run: cold start, both `datetime.now()` samples at 1.5s past the epoch, fetch
succeeds with one row.  The in-memory `cache_timestamp` is 1500000µs, but the
file's `日期` cell holds the formatted (second-truncated) 1000000µs. -/
theorem c5_refresh_counterexample :
    (aGetAllStocksData ⟨none, none, none⟩ 1500000 1500000
        (.ok [⟨some "600000", some "bank"⟩])).2
      = ⟨some [⟨some "600000", some "bank"⟩], some 1500000,
         some (.table [⟨some "600000", some "bank"⟩] [.valid 1000000])⟩ ∧
    (1000000 : Int) ≠ 1500000 := by
  decide

/-- C5 (amended): after every successful refresh the persisted file's rows
equal the new in-memory snapshot's rows; the file's date column holds the
second `datetime.now()` — sampled at write time, after the fetch — truncated
to whole seconds, while the in-memory `captured_at` is the first
`datetime.now()`, sampled at entry before the fetch; the two timestamps agree
only when those two instants coincide at second resolution. -/
theorem c5_refresh_persists_snapshot (sa : AState) (now nowWrite : Int)
    (rows : List ARow)
    (h : isFresh sa.cache sa.cache_timestamp now aCacheDuration = false) :
    aGetAllStocksData sa now nowWrite (.ok rows)
      = (.ok (aClean rows, 1),
         ⟨some (aClean rows), some now,
          some (RawFile.table (aClean rows)
            ((aClean rows).map fun _ => DateCell.valid (truncSec nowWrite)))⟩) := by
  obtain ⟨cache, ts, f⟩ := sa
  match cache, ts with
  | none, none => rfl
  | none, some t => rfl
  | some c, none => rfl
  | some c, some t =>
    have h2 : ¬ now - t < aCacheDuration := by simpa [isFresh] using h
    simp [aGetAllStocksData, h2, saveCsv, strftimeCell]

/-- Witness for C5 (amended) at a concrete cold-start refresh. -/
theorem c5_refresh_persists_snapshot_witness :
    aGetAllStocksData ⟨none, none, none⟩ 1500000 2700000
        (.ok [⟨some "600000", some "bank"⟩])
      = (.ok ([⟨some "600000", some "bank"⟩], 1),
         ⟨some [⟨some "600000", some "bank"⟩], some 1500000,
          some (RawFile.table [⟨some "600000", some "bank"⟩]
            [DateCell.valid (truncSec 2700000)])⟩) := by
  have := c5_refresh_persists_snapshot ⟨none, none, none⟩ 1500000 2700000
    [⟨some "600000", some "bank"⟩] rfl
  simpa [aClean, stripSpaces] using this

/-- C6 counterexample: saving an *empty* snapshot and loading it back does
not reproduce it — the saved file has no `日期` cell (the column of an empty
dataframe is empty, so `to_csv` writes a header only) and the constructor's
`df['日期'].iloc[0]` raises `IndexError` instead of returning the snapshot. -/
theorem c6_roundtrip_counterexample :
    aInit (some (saveCsv ([] : List ARow) 5000000))
      = .error "IndexError: single positional indexer is out-of-bounds" := rfl

/-- C6 (amended): for every *non-empty* snapshot, saving it to the cache file
and then loading it back (as the service constructor does) reproduces the
same rows and the same `captured_at` to the resolution of the stored
`YYYY-MM-DD HH:MM:SS` format (second truncation, idempotent); the timestamp
column is embedded in the on-disk table but stripped from the in-memory
snapshot's rows on both the save path (`df.pop('日期')` after `to_csv`) and
the load path (`df.pop('日期')` before seeding the cache).  Saving an empty
snapshot instead produces a file whose reload raises. -/
theorem c6_save_load_roundtrip (r0 : ARow) (rest : List ARow) (t : Int) :
    aInit (some (saveCsv (r0 :: rest) t))
      = .ok ⟨some (r0 :: rest), some (truncSec t), some (saveCsv (r0 :: rest) t)⟩ ∧
    truncSec (truncSec t) = truncSec t ∧
    saveCsv (r0 :: rest) t
      = .table (r0 :: rest) ((r0 :: rest).map fun _ => .valid (truncSec t)) := by
  refine ⟨rfl, ?_, rfl⟩
  simp [truncSec, usPerSec]

/-- Witness for C6 (amended) at a one-row snapshot and a non-second-aligned
capture instant. -/
theorem c6_save_load_roundtrip_witness :
    aInit (some (saveCsv [(⟨some "600000", some "bank"⟩ : ARow)] 1500000))
      = .ok ⟨some [⟨some "600000", some "bank"⟩], some (truncSec 1500000),
             some (saveCsv [(⟨some "600000", some "bank"⟩ : ARow)] 1500000)⟩ :=
  (c6_save_load_roundtrip ⟨some "600000", some "bank"⟩ [] 1500000).1

/-- C7 counterexample: a cache file that exists but is malformed does *not*
produce a non-fatal treated-as-no-cache condition — the constructor has no
exception handler, so the parse error propagates and service construction
fails (no fresh fetch is triggered).  Concrete inputs: an unparseable `日期`
cell, and an unreadable table. -/
theorem c7_load_counterexample :
    aInit (some (.table [⟨some "600000", some "bank"⟩] [.malformed "garbage"]))
      = .error ("ValueError: time data " ++ "garbage" ++ " does not match format")
    ∧ aInit (some .unreadable) = .error "pandas error: unreadable cache file" :=
  ⟨rfl, rfl⟩

/-- C7 (amended): loading the persisted cache yields no snapshot (and no
error) when the cache file does not exist; but when the file exists and is
malformed (unparseable timestamp cell or unreadable table) the error
propagates out of the constructor — the service fails to construct instead of
treating the file as "no cache" and fetching fresh data. -/
theorem c7_missing_file_vs_malformed :
    aInit none = .ok ⟨none, none, none⟩ ∧
    usInit none = .ok ⟨none, none, none⟩ ∧
    fundInit none none = .ok ⟨none, none, none, none, none, none⟩ ∧
    (∀ (rows : List ARow) (ds : List DateCell) (s : String),
      ds.head? = some (.malformed s) →
        aInit (some (.table rows ds))
          = .error ("ValueError: time data " ++ s ++ " does not match format")) ∧
    (∀ (rows : List ARow), aInit (some (.table rows []))
        = .error "IndexError: single positional indexer is out-of-bounds") := by
  refine ⟨rfl, rfl, rfl, ?_, ?_⟩
  · intro rows ds s h
    simp [aInit, readCsv, h, strptimeCell]
  · intro rows
    rfl

/-- Witness for C7 (amended): a concrete one-row file with a bad `日期` cell. -/
theorem c7_missing_file_vs_malformed_witness :
    aInit (some (.table [⟨some "0", some "x"⟩] [.malformed "not-a-date"]))
      = .error ("ValueError: time data " ++ "not-a-date" ++ " does not match format") :=
  c7_missing_file_vs_malformed.2.2.2.1 [⟨some "0", some "x"⟩]
    [.malformed "not-a-date"] "not-a-date" rfl

/-- The observable file states of the services' save
(`df['日期'] = ...; df.to_csv(cache_file, index=False)`). -/
def saveCsvStates {ρ : Type} (rows : List ρ) (tWrite : Int) : List (RawFile ρ) :=
  toCsvStates rows (rows.map fun _ => strftimeCell tWrite)

/-- Every prefix state (`n` rows written) occurs in the write trace. -/
theorem mem_toCsvStates {ρ : Type} (rows : List ρ) (dates : List DateCell)
    (n : Nat) (hn : n ≤ rows.length) :
    RawFile.table (rows.take n) (dates.take n) ∈ toCsvStates rows dates := by
  refine List.mem_map.mpr ⟨n, List.mem_range.mpr ?_, rfl⟩
  omega

/-- C8 counterexample: the save used by the services is a direct `to_csv` to
the cache path, and its write trace exposes a half-written file.  Concrete
two-row save over a pre-existing one-row file: the trace contains states (the
truncated empty table; the one-row prefix) that are neither the old contents
nor the new contents. -/
theorem c8_save_counterexample :
    ¬ neverHalfWritten
        (RawFile.table [(⟨some "9", some "z"⟩ : ARow)] [.valid 0])
        (saveCsv [(⟨some "1", some "a"⟩ : ARow), ⟨some "2", some "b"⟩] 0)
        (saveCsvStates [(⟨some "1", some "a"⟩ : ARow), ⟨some "2", some "b"⟩] 0) := by
  simp only [neverHalfWritten]
  decide

/-- C8 (amended): the save overwrites the previous cache file by writing
directly to the cache path (pandas `to_csv`; no temporary file and no
rename), so the write trace reaches the final contents but also passes
through intermediate states — for any write of at least two rows and any
prior contents, a concurrent reader can observe a file that is neither the
old nor the new contents. -/
theorem c8_save_not_atomic (a b : ARow) (rs : List ARow) (t : Int)
    (old : RawFile ARow) :
    saveCsv (a :: b :: rs) t ∈ saveCsvStates (a :: b :: rs) t ∧
    ¬ neverHalfWritten old (saveCsv (a :: b :: rs) t)
        (saveCsvStates (a :: b :: rs) t) := by
  have hm : ∀ n, n ≤ (a :: b :: rs).length →
      RawFile.table ((a :: b :: rs).take n)
        (((a :: b :: rs).map fun _ => strftimeCell t).take n)
        ∈ saveCsvStates (a :: b :: rs) t := fun n hn =>
    mem_toCsvStates _ _ n hn
  constructor
  · have hfin := hm (a :: b :: rs).length (le_refl _)
    simpa [saveCsv, List.take_length] using hfin
  · intro hnever
    have h0 := hnever (RawFile.table [] []) (by simpa using hm 0 (by simp))
    have h1 := hnever (RawFile.table [a] [strftimeCell t])
      (by simpa using hm 1 (by simp))
    have e0 : RawFile.table ([] : List ARow) [] ≠ saveCsv (a :: b :: rs) t := by
      simp [saveCsv]
    have e1 : RawFile.table [a] [strftimeCell t] ≠ saveCsv (a :: b :: rs) t := by
      simp [saveCsv]
    have o0 : RawFile.table ([] : List ARow) [] = old := h0.resolve_right e0
    have o1 : RawFile.table [a] [strftimeCell t] = old := h1.resolve_right e1
    rw [← o0] at o1
    simp at o1

/-- Witness for C8 (amended): none of its binders is a hypothesis, but a
concrete instantiation is still recorded. -/
theorem c8_save_not_atomic_witness :
    saveCsv [(⟨some "1", some "a"⟩ : ARow), ⟨some "2", some "b"⟩] 0
      ∈ saveCsvStates [(⟨some "1", some "a"⟩ : ARow), ⟨some "2", some "b"⟩] 0 :=
  (c8_save_not_atomic ⟨some "1", some "a"⟩ ⟨some "2", some "b"⟩ [] 0
    (RawFile.table [⟨some "9", some "z"⟩] [.valid 0])).1

/-- C9: for every `market_type` other than `'ETF'` — including values that
are neither `'ETF'` nor `'LOF'`, e.g. `'FOO'` — `_get_funds_data` (and hence
`search_funds` and `get_fund_detail`) serves the LOF catalog; for an
unrecognized value both cache-freshness checks are skipped, so the call
always triggers a provider fetch (count 1, for any cache state however
fresh) whose result overwrites the LOF in-memory cache, its timestamp, and
the LOF cache file. -/
theorem c9_unrecognized_market_type_serves_lof (sf : FundState)
    (mt kw sym : String) (now nowWrite : Int)
    (fetchETF : Except String (List FundRow)) (rows : List FundRow)
    (h1 : mt ≠ "ETF") (h2 : mt ≠ "LOF") :
    fundGetFundsData sf mt now nowWrite fetchETF (.ok rows)
      = (.ok (rows, 1),
         { sf with lof_cache := some rows, lof_cache_timestamp := some now,
                   lof_file := some (saveCsv rows nowWrite) }) ∧
    search_funds sf kw mt now nowWrite fetchETF (.ok rows)
      = (.ok (fundSearchRows rows kw),
         { sf with lof_cache := some rows, lof_cache_timestamp := some now,
                   lof_file := some (saveCsv rows nowWrite) }) ∧
    (get_fund_detail sf sym mt now nowWrite fetchETF (.ok rows)).2
      = { sf with lof_cache := some rows, lof_cache_timestamp := some now,
                  lof_file := some (saveCsv rows nowWrite) } := by
  have e1 : (mt == "ETF") = false := by
    simpa using h1
  have e2 : (mt == "LOF") = false := by
    simpa using h2
  have key : fundGetFundsData sf mt now nowWrite fetchETF (.ok rows)
      = (.ok (rows, 1),
         { sf with lof_cache := some rows, lof_cache_timestamp := some now,
                   lof_file := some (saveCsv rows nowWrite) }) := by
    simp [fundGetFundsData, e1, e2]
  refine ⟨key, by simp [search_funds, key], ?_⟩
  cases hd : fundDetailRows rows sym <;>
    simp [get_fund_detail, key, hd]

/-- Witness for C9: `market_type = "FOO"` against a state whose LOF cache is
perfectly fresh (`captured_at = now`) still fetches and overwrites LOF. -/
theorem c9_unrecognized_market_type_serves_lof_witness :
    fundGetFundsData
        ⟨none, none, some [⟨some "159915", some "efund", none, none, none,
          none, none, none⟩], some 0, none, none⟩
        "FOO" 0 0 (.error "etf-unused")
        (.ok [⟨some "161725", some "lof", none, none, none, none, none, none⟩])
      = (.ok ([⟨some "161725", some "lof", none, none, none, none, none, none⟩], 1),
         ⟨none, none,
          some [⟨some "161725", some "lof", none, none, none, none, none, none⟩],
          some 0, none,
          some (saveCsv [(⟨some "161725", some "lof", none, none, none, none,
            none, none⟩ : FundRow)] 0)⟩) :=
  (c9_unrecognized_market_type_serves_lof
    ⟨none, none, some [⟨some "159915", some "efund", none, none, none, none,
      none, none⟩], some 0, none, none⟩
    "FOO" "kw" "sym" 0 0 (.error "etf-unused")
    [⟨some "161725", some "lof", none, none, none, none, none, none⟩]
    (by decide) (by decide)).1

/-- C10: `get_us_stock_detail` returns, under the `name` key, the first
matching row's localized `cname` value (the native `name` column is not
included — the result's keys are exactly `symbol` and `name`), and like the
A-share detail operation it returns the caller-supplied symbol argument
verbatim as the `symbol` value. -/
theorem c10_us_detail_cname_and_symbol (df : List USRow) (sym : String)
    (r : USRow) (rest : List USRow)
    (h : df.filter (fun x => x.symbol == some sym) = r :: rest) :
    usDetailRows df sym
      = .ok [("symbol", .vStr sym), ("name", optVal r.cname)] ∧
    dictKeys [("symbol", PyVal.vStr sym), ("name", optVal r.cname)]
      = ["symbol", "name"] ∧
    (∀ (df2 : List ARow) (r2 : ARow) (rest2 : List ARow),
      df2.filter (fun x => x.symbol == some sym) = r2 :: rest2 →
        aDetailRows df2 sym
          = .ok [("symbol", .vStr sym), ("name", optVal r2.name)]) ∧
    usDetailRows [⟨some "Apple Inc", some "pingguo", some "AAPL"⟩] "AAPL"
      = .ok [("symbol", .vStr "AAPL"), ("name", .vStr "pingguo")] := by
  refine ⟨by simp [usDetailRows, h], rfl, ?_, rfl⟩
  intro df2 r2 rest2 h2
  simp [aDetailRows, h2]

/-- Witness for C10: a one-row US catalog where the native name and the
localized name differ; the detail result carries the localized name. -/
theorem c10_us_detail_cname_and_symbol_witness :
    usDetailRows [⟨some "Apple Inc", some "pingguo", some "AAPL"⟩] "AAPL"
      = .ok [("symbol", .vStr "AAPL"),
             ("name", optVal (some "pingguo"))] :=
  (c10_us_detail_cname_and_symbol
    [⟨some "Apple Inc", some "pingguo", some "AAPL"⟩] "AAPL"
    ⟨some "Apple Inc", some "pingguo", some "AAPL"⟩ [] (by decide)).1
